import Mathlib

/-!
Verification of the Session Token Manager of the Homefinder repository.

The renewal protocol is the source function refreshToken
(src/real-estate-platform/src/components/common-warnings/FullScreenLoader.jsx,
third document), embedded line by line below. The token store it drives
(module authTokenStore: setTokens, getAccessToken, getRefreshToken,
clearTokens) is imported by the source but its file is not among the shown
sources, so those four operations are modelled from the specification.
-/

namespace HomeFinder

/-- Modelled from the spec: the credential pair held by the token store
(module authTokenStore, imported by the source but missing from the shown
files). Each token is an opaque string; absence is represented by none. -/
structure Store where
  access : Option String
  refresh : Option String
deriving DecidableEq, Repr

/-- The store with neither token present. -/
def emptyStore : Store := ⟨none, none⟩

/-- Modelled from the spec: setTokens stores a new access token; the refresh
argument is optional, and when it is omitted the prior refresh token is kept
in place. -/
def setTokens (a : String) (r : Option String) (s : Store) : Store :=
  { access := some a,
    refresh := match r with
      | some r0 => some r0
      | none => s.refresh }

/-- Modelled from the spec: returns the currently stored access token, or an
absence signal when none is stored. -/
def getAccessToken (s : Store) : Option String := s.access

/-- Modelled from the spec: returns the currently stored refresh token, or an
absence signal when none is stored. -/
def getRefreshToken (s : Store) : Option String := s.refresh

/-- Modelled from the spec: removes both tokens; idempotent. -/
def clearTokens (_s : Store) : Store := emptyStore

/-- JavaScript logical-or applied to a possibly absent string with a string
default, as in the source expression newRefresh-or-refresh on line 60: a
missing or empty left operand selects the right operand. -/
def jsOr (x : Option String) (y : String) : String :=
  match x with
  | some s => if s = "" then y else s
  | none => y

/-- One HTTP request as issued by api.post inside refreshToken: the method,
the endpoint, and the refresh field of the JSON body. -/
structure Request where
  method : String
  endpoint : String
  refreshField : String
deriving DecidableEq, Repr

/-- The data of a resolved renewal response (res.data in the source): the
access and refresh fields, either of which may be absent. -/
structure RespData where
  access : Option String
  refresh : Option String
deriving DecidableEq, Repr

/-- Outcome of the single api.post call inside refreshToken: either a
resolved response carrying its data, or a rejection (transport or server
error, identified here by a numeric code such as an HTTP status). -/
inductive RenewalOutcome where
  | ok (data : RespData)
  | err (code : Nat)
deriving DecidableEq, Repr

/-- The errors refreshToken can raise: the absent-credential error (source
message No refresh token found), the renewal-failed error (source message
Token refresh failed), and a re-raised transport or server error. -/
inductive RefreshError where
  | noRefreshToken
  | refreshFailed
  | httpError (code : Nat)
deriving DecidableEq, Repr

/-- Everything observable about one refreshToken call: the value it returns
or the error it throws, the store it leaves behind, and the list of backend
requests it issued. -/
structure RefreshOutput where
  result : Except RefreshError String
  store : Store
  requests : List Request
deriving Repr

/-- The renewal protocol of the source refreshToken, parameterised by the
outcome of its single backend call. Mirrors the source: read the refresh
token and, when it is falsy, clear the tokens and throw the
absent-credential error without any request; otherwise POST the refresh
token to /token/refresh/; on a resolved response destructure access and
refresh from res.data, and when access is truthy store the pair (keeping the
old refresh token when the new one is falsy) and return access; otherwise
throw the renewal-failed error. The catch block clears the tokens and
re-raises on every error thrown after the request. -/
def refreshToken (outcome : RenewalOutcome) (s : Store) : RefreshOutput :=
  match getRefreshToken s with
  | none => ⟨.error .noRefreshToken, clearTokens s, []⟩
  | some r =>
    if r = "" then ⟨.error .noRefreshToken, clearTokens s, []⟩
    else
      let req : Request := ⟨"POST", "/token/refresh/", r⟩
      match outcome with
      | .err code => ⟨.error (.httpError code), clearTokens s, [req]⟩
      | .ok data =>
        match data.access with
        | none => ⟨.error .refreshFailed, clearTokens s, [req]⟩
        | some access =>
          if access = "" then ⟨.error .refreshFailed, clearTokens s, [req]⟩
          else ⟨.ok access, setTokens access (some (jsOr data.refresh r)) s, [req]⟩

/-- One mutating operation on the token store: a setTokens call, a
clearTokens call, or a refreshToken call with a given backend outcome. -/
inductive Op where
  | set (a : String) (r : Option String)
  | clear
  | refresh (outcome : RenewalOutcome)
deriving Repr

/-- Apply one operation to the store. -/
def step (s : Store) : Op → Store
  | .set a r => setTokens a r s
  | .clear => clearTokens s
  | .refresh outcome => (refreshToken outcome s).store

/-- Run a sequence of operations from a starting store. -/
def run (s : Store) (ops : List Op) : Store := ops.foldl step s

/-- Both tokens present, or neither present. -/
def bothOrNeither (s : Store) : Bool :=
  (s.access.isSome && s.refresh.isSome) || (s.access.isNone && s.refresh.isNone)

/-- A refresh token is never stored without an access token. -/
def refreshImpliesAccess (s : Store) : Bool :=
  !s.refresh.isSome || s.access.isSome

lemma step_refreshImpliesAccess (s : Store) (op : Op) :
    refreshImpliesAccess (step s op) = true := by
  cases op with
  | set a r =>
    cases r <;> simp [step, setTokens, refreshImpliesAccess]
  | clear =>
    simp [step, clearTokens, emptyStore, refreshImpliesAccess]
  | refresh outcome =>
    obtain ⟨acc, ref⟩ := s
    cases ref with
    | none =>
      simp [step, refreshToken, getRefreshToken, clearTokens, emptyStore,
        refreshImpliesAccess]
    | some r =>
      by_cases hr : r = ""
      · simp [step, refreshToken, getRefreshToken, clearTokens, emptyStore,
          refreshImpliesAccess, hr]
      · cases outcome with
        | err code =>
          simp [step, refreshToken, getRefreshToken, clearTokens, emptyStore,
            refreshImpliesAccess, hr]
        | ok data =>
          obtain ⟨oa, orr⟩ := data
          cases oa with
          | none =>
            simp [step, refreshToken, getRefreshToken, clearTokens, emptyStore,
              refreshImpliesAccess, hr]
          | some a =>
            by_cases ha : a = "" <;>
              simp [step, refreshToken, getRefreshToken, clearTokens,
                emptyStore, setTokens, refreshImpliesAccess, hr, ha]

lemma run_refreshImpliesAccess_aux (ops : List Op) :
    ∀ s : Store, refreshImpliesAccess s = true →
      refreshImpliesAccess (run s ops) = true := by
  induction ops with
  | nil =>
    intro s hs
    simpa [run] using hs
  | cons op rest ih =>
    intro s _
    have h1 := step_refreshImpliesAccess s op
    simpa [run] using ih (step s op) h1

/-- Claim C8: the token store round-trips: for all tokens a and r,
immediately after setTokens(a, r), getAccessToken() returns a and
getRefreshToken() returns r. -/
theorem setTokens_roundtrip (a r : String) (s : Store) :
    getAccessToken (setTokens a (some r) s) = some a ∧
    getRefreshToken (setTokens a (some r) s) = some r := by
  exact ⟨rfl, rfl⟩

/-- Claim C7: calling setTokens with only an access token leaves the stored
refresh token unchanged: after setTokens(a1, r1) then setTokens(a2) with no
refresh argument, the access token reads a2 and the refresh token still
reads r1. -/
theorem setTokens_partial_update (a1 r1 a2 : String) (s : Store) :
    getAccessToken (setTokens a2 none (setTokens a1 (some r1) s)) = some a2 ∧
    getRefreshToken (setTokens a2 none (setTokens a1 (some r1) s)) = some r1 := by
  exact ⟨rfl, rfl⟩

/-- Claim C2: when no refresh token is stored, refreshToken clears both
tokens, fails with the absent-credential error, and issues no request to the
renewal endpoint, whatever the backend would have answered. -/
theorem refreshToken_no_refresh (outcome : RenewalOutcome) (a : Option String) :
    refreshToken outcome ⟨a, none⟩ =
      ⟨.error .noRefreshToken, emptyStore, []⟩ := by
  rfl

/-- Claim C1: for a stored pair (a0, r0), a successful renewal response with
access token a1 and no refresh field leaves the store at (a1, r0), and one
with access a1 and refresh r1 leaves it at (a1, r1). -/
theorem refreshToken_success_pair (a0 : Option String) (r0 a1 : String)
    (hr0 : r0 ≠ "") (ha1 : a1 ≠ "") :
    (refreshToken (.ok ⟨some a1, none⟩) ⟨a0, some r0⟩).store = ⟨some a1, some r0⟩ ∧
    ∀ r1 : String, r1 ≠ "" →
      (refreshToken (.ok ⟨some a1, some r1⟩) ⟨a0, some r0⟩).store = ⟨some a1, some r1⟩ := by
  constructor
  · simp [refreshToken, getRefreshToken, setTokens, jsOr, hr0, ha1]
  · intro r1 hr1
    simp [refreshToken, getRefreshToken, setTokens, jsOr, hr0, ha1, hr1]

/-- Witness for claim C1 at the concrete stored pair (a0, r0) and response
tokens a1, r1. -/
theorem refreshToken_success_pair_witness :
    (refreshToken (.ok ⟨some "a1", none⟩) ⟨some "a0", some "r0"⟩).store
        = ⟨some "a1", some "r0"⟩ ∧
    (refreshToken (.ok ⟨some "a1", some "r1"⟩) ⟨some "a0", some "r0"⟩).store
        = ⟨some "a1", some "r1"⟩ := by
  refine ⟨?_, ?_⟩
  · exact (refreshToken_success_pair (some "a0") "r0" "a1" (by decide) (by decide)).1
  · exact (refreshToken_success_pair (some "a0") "r0" "a1" (by decide) (by decide)).2
      "r1" (by decide)

/-- Claim C3: for every prior store holding a refresh token, when the
renewal call is rejected, refreshToken leaves the store empty and re-raises
the same failure to the caller. -/
theorem refreshToken_backend_error_clears (s : Store) (r : String) (code : Nat)
    (hr : getRefreshToken s = some r) (hne : r ≠ "") :
    (refreshToken (.err code) s).store = emptyStore ∧
    (refreshToken (.err code) s).result = .error (.httpError code) := by
  obtain ⟨acc, ref⟩ := s
  simp only [getRefreshToken] at hr
  subst hr
  simp [refreshToken, getRefreshToken, clearTokens, hne]

/-- Witness for claim C3 at the concrete store (a0, r0) and an HTTP 401
rejection. -/
theorem refreshToken_backend_error_clears_witness :
    (refreshToken (.err 401) ⟨some "a0", some "r0"⟩).store = emptyStore ∧
    (refreshToken (.err 401) ⟨some "a0", some "r0"⟩).result
        = .error (.httpError 401) := by
  exact refreshToken_backend_error_clears ⟨some "a0", some "r0"⟩ "r0" 401 rfl
    (by decide)

/-- Claim C4: a nominally successful renewal response with no access field
makes refreshToken clear both tokens and fail with the renewal-failed
error, leaving the store empty. -/
theorem refreshToken_absent_access_clears (s : Store) (r : String)
    (hr : getRefreshToken s = some r) (hne : r ≠ "") (rr : Option String) :
    (refreshToken (.ok ⟨none, rr⟩) s).store = emptyStore ∧
    (refreshToken (.ok ⟨none, rr⟩) s).result = .error .refreshFailed := by
  obtain ⟨acc, ref⟩ := s
  simp only [getRefreshToken] at hr
  subst hr
  simp [refreshToken, getRefreshToken, clearTokens, hne]

/-- Witness for claim C4 at the concrete store (a0, r0) and a response with
only a refresh field. -/
theorem refreshToken_absent_access_clears_witness :
    (refreshToken (.ok ⟨none, some "r1"⟩) ⟨some "a0", some "r0"⟩).store = emptyStore ∧
    (refreshToken (.ok ⟨none, some "r1"⟩) ⟨some "a0", some "r0"⟩).result
        = .error .refreshFailed := by
  exact refreshToken_absent_access_clears ⟨some "a0", some "r0"⟩ "r0" rfl
    (by decide) (some "r1")

/-- Claim C9: presence of the response access token is decided by
truthiness: a successful response whose access field is present but empty
makes refreshToken clear both tokens and fail with the renewal-failed error
instead of storing the empty token. -/
theorem refreshToken_empty_access_clears (s : Store) (r : String)
    (hr : getRefreshToken s = some r) (hne : r ≠ "") (rr : Option String) :
    (refreshToken (.ok ⟨some "", rr⟩) s).store = emptyStore ∧
    (refreshToken (.ok ⟨some "", rr⟩) s).result = .error .refreshFailed := by
  obtain ⟨acc, ref⟩ := s
  simp only [getRefreshToken] at hr
  subst hr
  simp [refreshToken, getRefreshToken, clearTokens, hne]

/-- Witness for claim C9 at the concrete store (a0, r0) and a response whose
access field is the empty string. -/
theorem refreshToken_empty_access_clears_witness :
    (refreshToken (.ok ⟨some "", some "r1"⟩) ⟨some "a0", some "r0"⟩).store
        = emptyStore ∧
    (refreshToken (.ok ⟨some "", some "r1"⟩) ⟨some "a0", some "r0"⟩).result
        = .error .refreshFailed := by
  exact refreshToken_empty_access_clears ⟨some "a0", some "r0"⟩ "r0" rfl
    (by decide) (some "r1")

/-- Claim C6: refreshToken with a stored refresh token r issues exactly one
POST request to /token/refresh/ with request body refresh field r, whatever
the backend outcome; it never retries. -/
theorem refreshToken_single_request (s : Store) (r : String)
    (hr : getRefreshToken s = some r) (hne : r ≠ "") (outcome : RenewalOutcome) :
    (refreshToken outcome s).requests = [⟨"POST", "/token/refresh/", r⟩] := by
  obtain ⟨acc, ref⟩ := s
  simp only [getRefreshToken] at hr
  subst hr
  cases outcome with
  | err code =>
    simp [refreshToken, getRefreshToken, hne]
  | ok data =>
    obtain ⟨oa, orr⟩ := data
    cases oa with
    | none => simp [refreshToken, getRefreshToken, hne]
    | some a =>
      by_cases ha : a = "" <;>
        simp [refreshToken, getRefreshToken, hne, ha]

/-- Witness for claim C6 at the concrete store (a0, r0) and a successful
backend outcome. -/
theorem refreshToken_single_request_witness :
    (refreshToken (.ok ⟨some "a1", none⟩) ⟨some "a0", some "r0"⟩).requests
        = [⟨"POST", "/token/refresh/", "r0"⟩] := by
  exact refreshToken_single_request ⟨some "a0", some "r0"⟩ "r0" rfl (by decide)
    (.ok ⟨some "a1", none⟩)

/-- Claim C10: on every successful renewal (response with a truthy access
token), refreshToken returns the new access token to its caller and the
resulting store holds that token as the access token. -/
theorem refreshToken_returns_new_access (s : Store) (r a : String)
    (hr : getRefreshToken s = some r) (hner : r ≠ "") (hnea : a ≠ "")
    (rr : Option String) :
    (refreshToken (.ok ⟨some a, rr⟩) s).result = .ok a ∧
    getAccessToken ((refreshToken (.ok ⟨some a, rr⟩) s).store) = some a := by
  obtain ⟨acc, ref⟩ := s
  simp only [getRefreshToken] at hr
  subst hr
  simp [refreshToken, getRefreshToken, getAccessToken, setTokens, hner, hnea]

/-- Witness for claim C10 at the concrete store (a0, r0) and a successful
response carrying access a1. -/
theorem refreshToken_returns_new_access_witness :
    (refreshToken (.ok ⟨some "a1", none⟩) ⟨some "a0", some "r0"⟩).result
        = .ok "a1" ∧
    getAccessToken ((refreshToken (.ok ⟨some "a1", none⟩)
        ⟨some "a0", some "r0"⟩).store) = some "a1" := by
  exact refreshToken_returns_new_access ⟨some "a0", some "r0"⟩ "r0" "a1" rfl
    (by decide) (by decide) none

/-- Counterexample to claim C5 as stated: from the empty store, the single
operation setTokens(a1) with no refresh argument reaches a state holding
exactly one token (an access token without a refresh token), so not every
reachable state has both tokens or neither. -/
theorem bothOrNeither_counterexample :
    ¬ (bothOrNeither (run emptyStore [Op.set "a1" none]) = true) := by
  decide

/-- Claim C5 as amended: starting from the empty store, after any sequence
of setTokens, clearTokens, and refreshToken operations, the store never
holds a refresh token without an access token; a state with only an access
token is reachable (via an access-only setTokens) and counts as logged out
for refresh purposes. -/
theorem run_refreshImpliesAccess (ops : List Op) :
    refreshImpliesAccess (run emptyStore ops) = true := by
  exact run_refreshImpliesAccess_aux ops emptyStore rfl

end HomeFinder
